import Mathlib

set_option maxRecDepth 8000

/-!
Shallow embedding of the gt8004-sdk Python SDK (batching transport, logger
facade, wire serialization, middleware extraction helpers), together with
proofs of the specification claims about it.

The transport (`src/gt8004/transport.py`) is embedded as a pure state
machine: the asyncio lock makes every `add`/`flush` critical section atomic,
so the embedding is a sequential function from a state, the current wall
clock time, and an oracle of network outcomes (one `Bool` per POST attempt,
`true` = 2xx) to the next state plus a trace of the attempt loop.
-/

namespace GT8004

/-- State of a `BatchTransport` instance: the live buffer, the
circuit-breaker counters, and the construction-time batch size
(`transport.py`, `__init__`). Time stamps are rationals standing for the
Python float seconds of `time.time()`. -/
structure TransportState (α : Type) where
  buffer : List α
  consecutiveFailures : Nat
  circuitBreakerUntil : ℚ
  batchSize : Nat
deriving DecidableEq, Repr

/-- Trace of one `_flush_internal` call: the state afterwards, the entries
delivered (the snapshot batch on success, `[]` otherwise), how many POST
attempts were made, the backoff sleeps performed (seconds, in order), the
batch posted by each attempt, and whether a 2xx was received. -/
structure FlushRes (α : Type) where
  state : TransportState α
  delivered : List α
  attemptsMade : Nat
  sleeps : List ℚ
  posted : List (List α)
  succeeded : Bool
deriving DecidableEq, Repr

namespace BatchTransport

variable {α : Type}

/-- A flush call that does nothing: no attempt, no delivery, state kept. -/
def noop (s : TransportState α) : FlushRes α :=
  ⟨s, [], 0, [], [], false⟩

/-- The `for attempt in range(3)` retry loop of `_flush_internal`
(`transport.py` lines 74-95), recursing over the list of remaining attempt
indices (called with `[0, 1, 2]`). `oracle.getD attempt false = true` means
the POST of that attempt got a 2xx response; `false` covers non-2xx,
network error and timeout alike (all end in the `except` branch). `t1` is
the wall clock time at the final failure. -/
def sendLoop (batch : List α) (oracle : List Bool) (t1 : ℚ) :
    TransportState α → List Nat → FlushRes α
  | s, [] => noop s
  | s, attempt :: rest =>
    if oracle.getD attempt false then
      ⟨{ s with consecutiveFailures := 0 }, batch, 1, [], [batch], true⟩
    else if attempt < 2 then
      let r := sendLoop batch oracle t1 s rest
      ⟨r.state, r.delivered, r.attemptsMade + 1, ((2 : ℚ) ^ attempt) :: r.sleeps,
        batch :: r.posted, r.succeeded⟩
    else
      let cf := s.consecutiveFailures + 1
      ⟨{ s with
          consecutiveFailures := cf,
          circuitBreakerUntil := if 5 ≤ cf then t1 + 30 else s.circuitBreakerUntil,
          buffer := batch ++ s.buffer },
        [], 1, [], [batch], false⟩

/-- Embedding of `BatchTransport._flush_internal` (`transport.py` lines
58-95): return on empty buffer, return while the circuit breaker window is
open (`time.time() < circuit_breaker_until`, checked at time `t0`),
otherwise snapshot the buffer, clear it, and run the 3-attempt send loop. -/
def flushInternal (s : TransportState α) (t0 t1 : ℚ) (oracle : List Bool) : FlushRes α :=
  if s.buffer.isEmpty then noop s
  else if t0 < s.circuitBreakerUntil then noop s
  else sendLoop s.buffer oracle t1 { s with buffer := [] } [0, 1, 2]

/-- Embedding of `BatchTransport.add` (`transport.py` lines 46-56): append
the entry and, if the buffer has reached `batch_size`, flush synchronously
inside the same critical section. -/
def add (s : TransportState α) (e : α) (t0 t1 : ℚ) (oracle : List Bool) : FlushRes α :=
  let s1 : TransportState α := { s with buffer := s.buffer ++ [e] }
  if s1.batchSize ≤ s1.buffer.length then flushInternal s1 t0 t1 oracle
  else noop s1

/-- Embedding of the public `BatchTransport.flush` (`transport.py` lines
97-100): take the lock and run the internal flush. -/
def flush (s : TransportState α) (t0 t1 : ℚ) (oracle : List Bool) : FlushRes α :=
  flushInternal s t0 t1 oracle

/-- Fresh transport state as built by `BatchTransport.__init__`:
empty buffer, zero failures, circuit breaker in the past. -/
def initState (α : Type) (batchSize : Nat) : TransportState α :=
  ⟨[], 0, 0, batchSize⟩

/-- One queued operation against the transport: an `add` of an entry or a
caller-invoked `flush`, together with the wall clock times and the network
oracle its (possible) flush will observe. -/
structure OpCtx (α : Type) where
  isAdd : Bool
  entry : α
  t0 : ℚ
  t1 : ℚ
  oracle : List Bool

/-- Run one queued operation. -/
def step (s : TransportState α) (o : OpCtx α) : FlushRes α :=
  if o.isAdd then add s o.entry o.t0 o.t1 o.oracle
  else flush s o.t0 o.t1 o.oracle

/-- Run a sequence of operations, accumulating the delivered entries in
chronological order. -/
def runOps (s : TransportState α) : List (OpCtx α) → TransportState α × List α
  | [] => (s, [])
  | o :: rest =>
    let r := step s o
    let p := runOps r.state rest
    (p.1, r.delivered ++ p.2)

/-- The entries added by a sequence of operations, in order. -/
def addsOf (ops : List (OpCtx α)) : List α :=
  ops.filterMap (fun o => if o.isAdd then some o.entry else none)

/-- The retry loop neither loses nor duplicates entries: what it delivers
followed by what it leaves in the buffer is the batch followed by the live
buffer. -/
theorem sendLoop_conservation (batch : List α) (oracle : List Bool) (t1 : ℚ)
    (s : TransportState α) :
    (sendLoop batch oracle t1 s [0, 1, 2]).delivered ++
      (sendLoop batch oracle t1 s [0, 1, 2]).state.buffer = batch ++ s.buffer := by
  simp only [sendLoop]
  cases h0 : oracle[0]?.getD false <;> cases h1 : oracle[1]?.getD false <;>
    cases h2 : oracle[2]?.getD false <;> simp [h0, h1, h2]

/-- One internal flush conserves the entries. -/
theorem flushInternal_conservation (s : TransportState α) (t0 t1 : ℚ)
    (oracle : List Bool) :
    (flushInternal s t0 t1 oracle).delivered ++
      (flushInternal s t0 t1 oracle).state.buffer = s.buffer := by
  unfold flushInternal
  by_cases he : s.buffer.isEmpty <;> by_cases hc : t0 < s.circuitBreakerUntil <;>
    simp [he, hc, noop, sendLoop_conservation]

/-- When all three attempts fail, the loop re-queues the snapshot in front of
the live buffer, bumps the failure counter, possibly opens the circuit
breaker, and its trace shows 3 attempts of the same batch with backoff
sleeps of 1 and 2 seconds. -/
theorem sendLoop_all_fail (batch : List α) (oracle : List Bool) (t1 : ℚ)
    (s : TransportState α)
    (h0 : oracle.getD 0 false = false) (h1 : oracle.getD 1 false = false)
    (h2 : oracle.getD 2 false = false) :
    sendLoop batch oracle t1 s [0, 1, 2] =
      ⟨{ s with
          consecutiveFailures := s.consecutiveFailures + 1,
          circuitBreakerUntil :=
            if 5 ≤ s.consecutiveFailures + 1 then t1 + 30 else s.circuitBreakerUntil,
          buffer := batch ++ s.buffer },
        [], 3, [1, 2], [batch, batch, batch], false⟩ := by
  simp only [List.getD_eq_getElem?_getD] at h0 h1 h2
  simp [sendLoop, h0, h1, h2]

/-- One operation conserves the entries, adding the new one when it is an
`add`. -/
theorem step_conservation (s : TransportState α) (o : OpCtx α) :
    (step s o).delivered ++ (step s o).state.buffer =
      s.buffer ++ (if o.isAdd then [o.entry] else []) := by
  unfold step add flush
  by_cases ha : o.isAdd <;>
    by_cases ht : (TransportState.batchSize s ≤ s.buffer.length + 1) <;>
    simp [ha, ht, noop, flushInternal_conservation]

/-- A whole run of operations conserves the entries. -/
theorem runOps_conservation (ops : List (OpCtx α)) (s : TransportState α) :
    (runOps s ops).2 ++ (runOps s ops).1.buffer = s.buffer ++ addsOf ops := by
  induction ops generalizing s with
  | nil => simp [runOps, addsOf]
  | cons o rest ih =>
    have hstep := step_conservation s o
    have hih := ih (step s o).state
    simp only [runOps, addsOf, List.filterMap_cons] at *
    rw [List.append_assoc, hih, ← List.append_assoc, hstep, List.append_assoc]
    cases o.isAdd <;> simp

end BatchTransport

/-- JSON values as they appear on the wire. There is deliberately no `null`
constructor: the serializer (`model_dump(..., exclude_none=True)`) omits
absent fields instead of emitting nulls. -/
inductive Wire : Type where
  | str : String → Wire
  | int : Int → Wire
  | num : ℚ → Wire
  | obj : List (String × Wire) → Wire
  | arr : List Wire → Wire

/-- Embedding of Python `str.split` with a one-character separator, on the
character list of the string: returns the (possibly empty) segments between
separator occurrences, so the result is always non-empty and splitting the
empty string yields one empty segment, exactly as in Python. -/
def splitOnChar (sep : Char) : List Char → List (List Char)
  | [] => [[]]
  | c :: rest =>
    let r := splitOnChar sep rest
    if c = sep then [] :: r
    else
      match r with
      | [] => [[c]]
      | s :: ss => (c :: s) :: ss

/-- Embedding of Python `str.capitalize`: first character upper-cased, the
rest lower-cased. -/
def pyCapitalize (s : String) : String :=
  match s.data with
  | [] => ""
  | c :: rest => String.mk (c.toUpper :: rest.map Char.toLower)

/-- Embedding of the `_to_camel` alias generator (`types.py` lines 8-10):
split on underscores, keep the first part, capitalize the rest, join. -/
def toCamel (name : String) : String :=
  match (splitOnChar '_' name.data).map String.mk with
  | [] => ""
  | p :: ps => p ++ String.join (ps.map pyCapitalize)

/-- Embedding of the `RequestLogEntry` pydantic model (`types.py` lines
13-54): five required fields, nineteen optional (`None`-defaulted) fields,
a `source` defaulting to `"sdk"`, and a timestamp string. -/
structure RequestLogEntry where
  request_id : String
  method : String
  path : String
  status_code : Int
  response_ms : ℚ
  customer_id : Option String := none
  tool_name : Option String := none
  error_type : Option String := none
  x402_amount : Option ℚ := none
  x402_tx_hash : Option String := none
  x402_token : Option String := none
  x402_payer : Option String := none
  request_body : Option String := none
  response_body : Option String := none
  request_body_size : Option Int := none
  response_body_size : Option Int := none
  headers : Option (List (String × String)) := none
  ip_address : Option String := none
  user_agent : Option String := none
  referer : Option String := none
  content_type : Option String := none
  accept_language : Option String := none
  protocol : Option String := none
  source : String := "sdk"
  timestamp : String := ""
deriving DecidableEq, Repr

/-- The ordered field list of `RequestLogEntry` as (python-side name,
optional wire value) pairs, in pydantic dump order; `none` marks a field
the `exclude_none` dump drops. -/
def entryFields (e : RequestLogEntry) : List (String × Option Wire) :=
  [("request_id", some (.str e.request_id)),
   ("method", some (.str e.method)),
   ("path", some (.str e.path)),
   ("status_code", some (.int e.status_code)),
   ("response_ms", some (.num e.response_ms)),
   ("customer_id", e.customer_id.map .str),
   ("tool_name", e.tool_name.map .str),
   ("error_type", e.error_type.map .str),
   ("x402_amount", e.x402_amount.map .num),
   ("x402_tx_hash", e.x402_tx_hash.map .str),
   ("x402_token", e.x402_token.map .str),
   ("x402_payer", e.x402_payer.map .str),
   ("request_body", e.request_body.map .str),
   ("response_body", e.response_body.map .str),
   ("request_body_size", e.request_body_size.map .int),
   ("response_body_size", e.response_body_size.map .int),
   ("headers", e.headers.map (fun h => .obj (h.map (fun kv => (kv.1, .str kv.2))))),
   ("ip_address", e.ip_address.map .str),
   ("user_agent", e.user_agent.map .str),
   ("referer", e.referer.map .str),
   ("content_type", e.content_type.map .str),
   ("accept_language", e.accept_language.map .str),
   ("protocol", e.protocol.map .str),
   ("source", some (.str e.source)),
   ("timestamp", some (.str e.timestamp))]

/-- Embedding of `entry.model_dump(by_alias=True, exclude_none=True)` as
performed in `BatchTransport._flush_internal` (`transport.py` line 78):
every field name goes through the camel-case alias generator and every
`None` field is omitted entirely. -/
def dumpEntry (e : RequestLogEntry) : List (String × Wire) :=
  (entryFields e).filterMap (fun p => p.2.map (fun w => (toCamel p.1, w)))

/-- Embedding of the `LogBatch` pydantic model (`types.py` lines 57-64). -/
structure LogBatch where
  agent_id : String
  sdk_version : String := "python-0.2.0"
  entries : List RequestLogEntry

/-- Embedding of `batch.model_dump(by_alias=True, exclude_none=True)`: all
three fields are required, so none is ever omitted. -/
def dumpBatch (b : LogBatch) : List (String × Wire) :=
  [(toCamel "agent_id", .str b.agent_id),
   (toCamel "sdk_version", .str b.sdk_version),
   (toCamel "entries", .arr (b.entries.map (fun e => .obj (dumpEntry e))))]

/-- A lower-camel-case key: nonempty, free of underscores, starting with a
lower-case letter. -/
def isLowerCamel (s : String) : Bool :=
  (!s.isEmpty) && (!s.data.contains '_') &&
    (match s.data with
     | [] => false
     | c :: _ => c.isLower)

/-- The python-side field names of `RequestLogEntry`, in dump order
(independent of the entry's values). -/
theorem entryFields_names (e : RequestLogEntry) :
    (entryFields e).map Prod.fst =
      ["request_id", "method", "path", "status_code", "response_ms",
       "customer_id", "tool_name", "error_type", "x402_amount", "x402_tx_hash",
       "x402_token", "x402_payer", "request_body", "response_body",
       "request_body_size", "response_body_size", "headers", "ip_address",
       "user_agent", "referer", "content_type", "accept_language", "protocol",
       "source", "timestamp"] := rfl

/-- The single-quote character, for building the Python error message
texts. -/
def sq : String := String.singleton (Char.ofNat 39)

/-- Wrap a string in single quotes, as the Python f-strings do. -/
def quoted (s : String) : String := sq ++ s ++ sq

/-- The `_INGEST_URLS` table of `GT8004Logger` (`logger.py` lines 36-39). -/
def ingestUrls : List (String × String) :=
  [("mainnet", "https://ingest.gt8004.xyz/v1/ingest"),
   ("testnet", "https://testnet.ingest.gt8004.xyz/v1/ingest")]

/-- The `VALID_PROTOCOLS` tuple of `GT8004Logger` (`logger.py` line 34). -/
def validProtocols : List String := ["mcp", "a2a"]

/-- State of a successfully constructed `GT8004Logger` (its own attributes
plus the transport configuration it passes on). -/
structure LoggerConfig where
  agent_id : String
  api_key : String
  ingest_url : String
  protocol : Option String
  batch_size : Nat
  flush_interval : ℚ
deriving DecidableEq, Repr

/-- Embedding of `GT8004Logger.__init__` (`logger.py` lines 41-78): reject
a `network` outside the ingest-URL table with a `ValueError` citing the
allowed values; default the ingest URL from the network only when no
explicit `ingest_url` override is given; reject a non-null `protocol`
outside `VALID_PROTOCOLS`; otherwise build the state. A raised
`ValueError` is modelled as `Except.error` carrying the message text. -/
def loggerInit (agent_id api_key : String) (ingest_url : Option String)
    (network : String) (batch_size : Nat) (flush_interval : ℚ)
    (protocol : Option String) : Except String LoggerConfig :=
  match ingestUrls.lookup network with
  | none =>
      .error ("network must be " ++ quoted "mainnet" ++ " or " ++
        quoted "testnet" ++ ", got " ++ quoted network)
  | some defaultUrl =>
      let url := ingest_url.getD defaultUrl
      match protocol with
      | some p =>
          if validProtocols.contains p then
            .ok ⟨agent_id, api_key, url, some p, batch_size, flush_interval⟩
          else
            .error ("protocol must be one of (" ++ quoted "mcp" ++ ", " ++
              quoted "a2a" ++ "), got " ++ quoted p)
      | none => .ok ⟨agent_id, api_key, url, none, batch_size, flush_interval⟩

/-- The pydantic pattern constraint on `RequestLogEntry.protocol`
(`types.py` line 48): a non-null protocol must match the regular expression
anchored to exactly `mcp` or `a2a`. -/
def protocolOk : Option String → Bool
  | none => true
  | some p => p == "mcp" || p == "a2a"

/-- Embedding of validated pydantic construction of a `RequestLogEntry`:
construction raises a `ValidationError` exactly when the protocol pattern
fails, so no entry value with an out-of-range protocol can come into
existence. -/
def mkEntry (e : RequestLogEntry) : Except String RequestLogEntry :=
  if protocolOk e.protocol then .ok e
  else .error "ValidationError: protocol does not match pattern (mcp|a2a)"

/-- Python truthiness of an optional string, as in `if not entry.protocol`. -/
def pyFalsyStr : Option String → Bool
  | none => true
  | some s => s == ""

/-- Embedding of `GT8004Logger.log` (`logger.py` lines 110-121): assign the
logger's configured protocol to the entry only when the entry's own
protocol is unset (falsy), then hand the entry to `transport.add`. The
assignment bypasses pydantic validation (no `validate_assignment`), so
preservation of the protocol range rests on the logger's own constructor
validation. -/
def logProtocolFill (cfg : LoggerConfig) (e : RequestLogEntry) : RequestLogEntry :=
  if pyFalsyStr e.protocol then { e with protocol := cfg.protocol } else e

/-- The synthetic startup-ping entry built by
`GT8004Logger.verify_connection` (`logger.py` lines 92-100). -/
def pingEntry (ts : String) : RequestLogEntry :=
  { request_id := "startup-ping", method := "PING", path := "/_sdk/startup",
    status_code := 0, response_ms := 0, source := "sdk_ping", timestamp := ts }

/-- Embedding of `GT8004Logger.verify_connection` (`logger.py` lines
80-108): add the ping entry via `transport.add`, then force an immediate
`transport.flush` regardless of the batch threshold. The surrounding
`try/except` returns `False` only when `add`/`flush` raise; since
`_flush_internal` swallows every delivery failure, the embedded
`add`/`flush` are total functions and the `return True` branch is always
reached. Returns the boolean together with the transport state left
behind. -/
def verifyConnection (s : TransportState RequestLogEntry) (ts : String)
    (t0 t1 t2 t3 : ℚ) (oracleAdd oracleFlush : List Bool) :
    Bool × TransportState RequestLogEntry :=
  let r1 := BatchTransport.add s (pingEntry ts) t0 t1 oracleAdd
  let r2 := BatchTransport.flush r1.state t2 t3 oracleFlush
  (true, r2.state)

/-- Whether the first character list is an initial run of the second. -/
def leadsWith : List Char → List Char → Bool
  | [], _ => true
  | _ :: _, [] => false
  | a :: as, b :: bs => a == b && leadsWith as bs

/-- Whether `pat` occurs as a contiguous run inside `s`. -/
def containsSeq (pat : List Char) : List Char → Bool
  | [] => pat.isEmpty
  | b :: bs => leadsWith pat (b :: bs) || containsSeq pat bs

/-- JSON values as produced by `json.loads` (numbers restricted to the
integers, which covers every payload the SDK's extraction code inspects). -/
inductive Json : Type where
  | str : String → Json
  | int : Int → Json
  | bool : Bool → Json
  | null : Json
  | arr : List Json → Json
  | obj : List (String × Json) → Json

/-- Python truthiness of a JSON value. -/
def Json.truthy : Json → Bool
  | .str s => !(s == "")
  | .int n => !(n == 0)
  | .bool b => b
  | .null => false
  | .arr l => !l.isEmpty
  | .obj l => !l.isEmpty

/-- Python `str(...)` of a JSON value, as applied to the `transaction`,
`payer` and `network` settlement fields. Only the scalar cases are ever
exercised by the wire format; containers get a placeholder rendering. -/
def Json.pyStr : Json → String
  | .str s => s
  | .int n => toString n
  | .bool b => if b then "True" else "False"
  | .null => "None"
  | .arr _ => "[...]"
  | .obj _ => "{...}"

/-- Python `int(...)` of a JSON value: integers pass through, booleans
count as 0/1, numeric strings parse; anything else raises — modelled as
`none`, which the adapter's blanket `except` clause turns into skipping
the assignment. -/
def Json.pyInt : Json → Option Int
  | .int n => some n
  | .bool b => some (if b then 1 else 0)
  | .str s => s.toInt?
  | _ => none

/-- Python `dict.get(key)` on a JSON value: `none` both when the key is
missing and when the value is not a dict — the latter raises an
AttributeError in Python, which every call site here catches with a
blanket `except` whose observable outcome coincides with the missing-key
path. -/
def Json.get : Json → String → Option Json
  | .obj kvs, k => kvs.lookup k
  | _, _ => none

/-- The four x402 payment fields the adapters extract. -/
structure X402Fields where
  x402_amount : Option ℚ := none
  x402_tx_hash : Option String := none
  x402_token : Option String := none
  x402_payer : Option String := none
deriving DecidableEq, Repr

/-- Embedding of `extract_x402_payment` (`middleware/_extract.py` lines
56-105). `decode` models the composition of `base64.b64decode` and
`json.loads`; `decode h = none` stands for any of the caught
decode/parse exceptions. The response header is parsed first for the
settlement fields, then the request header for the amount
(`int(value) / 1_000_000`); every failure path leaves the fields at
`none`. -/
def extract_x402_payment (decode : String → Option Json)
    (payment_request payment_response : Option String) : X402Fields :=
  let r0 : X402Fields := {}
  let r1 :=
    match payment_response with
    | none => r0
    | some hdr =>
      if hdr == "" then r0
      else
        match decode hdr with
        | none => r0
        | some resp =>
          if ((resp.get "success").map Json.truthy).getD false then
            let ra :=
              match resp.get "transaction" with
              | some t =>
                  if t.truthy then { r0 with x402_tx_hash := some t.pyStr }
                  else r0
              | none => r0
            let rb :=
              match resp.get "payer" with
              | some t =>
                  if t.truthy then { ra with x402_payer := some t.pyStr }
                  else ra
              | none => ra
            match resp.get "network" with
            | some t =>
                if t.truthy then
                  { rb with x402_token := some ("USDC-" ++ t.pyStr) }
                else rb
            | none => rb
          else r0
  match payment_request with
  | none => r1
  | some hdr =>
    if hdr == "" then r1
    else
      match decode hdr with
      | none => r1
      | some req =>
        let payload := (req.get "payload").getD (.obj [])
        let auth := (payload.get "authorization").getD (.obj [])
        match auth.get "value" with
        | none => r1
        | some .null => r1
        | some v =>
          match v.pyInt with
          | some i => { r1 with x402_amount := some ((i : ℚ) / 1000000) }
          | none => r1

/-- Python call semantics for `extract_x402_payment` applied to a
positional argument list: the function declares two required positional
parameters, so any other arity raises a `TypeError` before the body
runs. -/
def callExtractX402 (decode : String → Option Json)
    (args : List (Option String)) : Except String X402Fields :=
  match args with
  | [pr, ps] => .ok (extract_x402_payment decode pr ps)
  | _ =>
    .error "TypeError: extract_x402_payment() missing 1 required positional argument"

/-- The x402 extraction step of `GT8004Middleware.dispatch`
(`middleware/fastapi.py` line 117): the call passes exactly one positional
argument, `request.headers.get("x-payment")`. The pure-ASGI adapter
(`middleware/asgi.py` line 124) performs the identical one-argument
call. -/
def fastapiX402Step (decode : String → Option Json)
    (xPayment : Option String) : Except String X402Fields :=
  callExtractX402 decode [xPayment]

/-- Embedding of Python `path.rstrip("/")` on the character list. -/
def rstripSlash (l : List Char) : List Char :=
  (l.reverse.dropWhile (fun c => c == '/')).reverse

/-- Embedding of `extract_mcp_tool_name` (`middleware/_extract.py` lines
12-22): on a truthy body that parses to a dict whose `method` is the
string `tools/call`, return `params.name` (whatever JSON value that is);
every other path — absent/empty body, parse failure, non-dict data, other
method — returns `none`. -/
def extract_mcp_tool_name (parse : String → Option Json)
    (body : Option String) : Option Json :=
  match body with
  | none => none
  | some b =>
    if b == "" then none
    else
      match parse b with
      | none => none
      | some data =>
        match data.get "method" with
        | some (.str m) =>
          if m == "tools/call" then
            ((data.get "params").getD (.obj [])).get "name"
          else none
        | _ => none

/-- Embedding of `extract_a2a_tool_name` (`middleware/_extract.py` lines
25-37): a truthy `skill_id` from a parsed body wins; otherwise fall back
to the last segment of the `/`-stripped path. -/
def extract_a2a_tool_name (parse : String → Option Json)
    (body : Option String) (path : String) : Option Json :=
  let fromBody : Option Json :=
    match body with
    | none => none
    | some b =>
      if b == "" then none
      else
        match parse b with
        | none => none
        | some data =>
          match data.get "skill_id" with
          | some v => if v.truthy then some v else none
          | none => none
  match fromBody with
  | some v => some v
  | none =>
    match (splitOnChar '/' (rstripSlash path.data)).getLast? with
    | some seg => some (.str (String.mk seg))
    | none => none

/-- Embedding of `extract_http_tool_name` (`middleware/_extract.py` lines
40-43): the last segment of the `/`-stripped path. -/
def extract_http_tool_name (path : String) : Option Json :=
  match (splitOnChar '/' (rstripSlash path.data)).getLast? with
  | some seg => some (.str (String.mk seg))
  | none => none

/-- Embedding of `extract_tool_name` (`middleware/_extract.py` lines
46-53): dispatch on the declared protocol. -/
def extract_tool_name (parse : String → Option Json) (protocol : Option String)
    (body : Option String) (path : String) : Option Json :=
  if protocol == some "mcp" then extract_mcp_tool_name parse body
  else if protocol == some "a2a" then extract_a2a_tool_name parse body path
  else extract_http_tool_name path

/-- Specification-side description of the path fallback: the last
non-empty `/`-separated segment of the path, if any. -/
def lastNonEmptySegment (path : String) : Option (List Char) :=
  ((splitOnChar '/' path.data).filter (fun seg => !seg.isEmpty)).getLast?

/-- The JSON-RPC body text of the specification's mcp scenario. -/
def mcpBodyText : String :=
  "\x7b\x22method\x22:\x22tools/call\x22,\x22params\x22:\x7b\x22name\x22:\x22search\x22\x7d\x7d"

/-- Append a character to the last segment of a segment list. -/
def appLast (x : Char) : List (List Char) → List (List Char)
  | [] => [[x]]
  | [s] => [s ++ [x]]
  | s :: ss => s :: appLast x ss

/-- Splitting always yields at least one segment. -/
theorem splitOnChar_ne_nil (sep : Char) (l : List Char) :
    splitOnChar sep l ≠ [] := by
  induction l with
  | nil => simp [splitOnChar]
  | cons c rest ih =>
    simp only [splitOnChar]
    by_cases hc : c = sep
    · simp [hc]
    · simp only [if_neg hc]
      cases hr : splitOnChar sep rest with
      | nil => simp
      | cons s ss => simp

/-- A trailing separator contributes one trailing empty segment. -/
theorem splitOnChar_append_sep (sep : Char) (l : List Char) :
    splitOnChar sep (l ++ [sep]) = splitOnChar sep l ++ [[]] := by
  induction l with
  | nil => simp [splitOnChar]
  | cons c rest ih =>
    by_cases hc : c = sep
    · simp only [List.cons_append, splitOnChar, if_pos hc, List.append_eq]
      rw [ih]
    · simp only [List.cons_append, splitOnChar, if_neg hc, List.append_eq]
      rw [ih]
      cases hr : splitOnChar sep rest with
      | nil => exact absurd hr (splitOnChar_ne_nil sep rest)
      | cons s ss => simp

/-- A trailing non-separator character lands on the last segment. -/
theorem splitOnChar_append_other (sep c : Char) (hc : c ≠ sep) (l : List Char) :
    splitOnChar sep (l ++ [c]) = appLast c (splitOnChar sep l) := by
  induction l with
  | nil => simp [splitOnChar, appLast, hc]
  | cons a rest ih =>
    by_cases ha : a = sep
    · simp only [List.cons_append, splitOnChar, if_pos ha, List.append_eq]
      rw [ih]
      cases hr : splitOnChar sep rest with
      | nil => exact absurd hr (splitOnChar_ne_nil sep rest)
      | cons s ss => cases ss <;> simp [appLast]
    · simp only [List.cons_append, splitOnChar, if_neg ha, List.append_eq]
      rw [ih]
      cases hr : splitOnChar sep rest with
      | nil => exact absurd hr (splitOnChar_ne_nil sep rest)
      | cons s ss => cases ss <;> simp [appLast]

/-- The last segment after `appLast` is the old last segment with the
character appended. -/
theorem getLast?_appLast (c : Char) (xs : List (List Char)) :
    (appLast c xs).getLast? = some ((xs.getLast?).getD [] ++ [c]) := by
  induction xs with
  | nil => simp [appLast]
  | cons s ss ih =>
    cases ss with
    | nil => simp [appLast]
    | cons s2 ss2 =>
      have h1 : appLast c (s :: s2 :: ss2) = s :: appLast c (s2 :: ss2) := rfl
      rw [h1]
      cases happ : appLast c (s2 :: ss2) with
      | nil => exact absurd happ (by cases ss2 <;> simp [appLast])
      | cons t ts =>
        rw [List.getLast?_cons_cons, ← happ, ih, List.getLast?_cons_cons]

/-- `appLast` written as dropping the last segment and re-appending it with
the character attached. -/
theorem appLast_eq_dropLast_append (c : Char) (xs : List (List Char)) :
    appLast c xs = xs.dropLast ++ [(xs.getLast?).getD [] ++ [c]] := by
  induction xs with
  | nil => simp [appLast]
  | cons s ss ih =>
    cases ss with
    | nil => simp [appLast]
    | cons s2 ss2 =>
      have h1 : appLast c (s :: s2 :: ss2) = s :: appLast c (s2 :: ss2) := rfl
      rw [h1, ih, List.getLast?_cons_cons]
      rfl

/-- The last element of a filtered concat when the appended element
passes the filter. -/
theorem getLast?_filter_concat (p : List Char → Bool) (xs : List (List Char))
    (a : List Char) (ha : p a = true) :
    ((xs ++ [a]).filter p).getLast? = some a := by
  rw [List.filter_append]
  have h1 : List.filter p [a] = [a] := by simp [ha]
  rw [h1, List.getLast?_concat]

/-- A trailing separator character also vanishes from the right-strip. -/
theorem rstripSlash_append_sep (m : List Char) :
    rstripSlash (m ++ ['/']) = rstripSlash m := by
  simp [rstripSlash, List.dropWhile]

/-- A trailing non-separator character stops the right-strip. -/
theorem rstripSlash_append_other (c : Char) (hc : c ≠ '/') (m : List Char) :
    rstripSlash (m ++ [c]) = m ++ [c] := by
  have hb : (c == '/') = false := by simp [hc]
  simp [rstripSlash, List.dropWhile, hb]

/-- Refinement of the path fallback against its specification: when the
path has a non-empty segment at all, the code's "last segment after
stripping trailing slashes" is exactly the specification's "last non-empty
segment". -/
theorem splitOnChar_rstrip_getLast (l : List Char)
    (h : ((splitOnChar '/' l).filter (fun s => !s.isEmpty)).getLast? ≠ none) :
    (splitOnChar '/' (rstripSlash l)).getLast? =
      ((splitOnChar '/' l).filter (fun s => !s.isEmpty)).getLast? := by
  induction l using List.reverseRecOn with
  | nil => simp [splitOnChar] at h
  | append_singleton m c ih =>
    by_cases hc : c = '/'
    · subst hc
      rw [rstripSlash_append_sep, splitOnChar_append_sep] at *
      have hfil : ((splitOnChar '/' m ++ [[]]).filter (fun s => !s.isEmpty)) =
          (splitOnChar '/' m).filter (fun s => !s.isEmpty) := by
        rw [List.filter_append]
        simp
      rw [hfil] at h ⊢
      exact ih h
    · rw [rstripSlash_append_other c hc, splitOnChar_append_other '/' c hc,
        getLast?_appLast, appLast_eq_dropLast_append,
        getLast?_filter_concat _ _ _ (by simp)]

namespace Claims

open BatchTransport

/-- Claim C1: no entry is ever dropped before delivery. (i) Conservation:
over any sequence of `add`/`flush` operations, the delivered entries
followed by the final buffer are exactly the initial buffer followed by all
added entries, in their original order. (ii) A flush that exhausts all 3
attempts prepends the snapshot to the live buffer (failed-batch entries
first, then whatever accumulated since the snapshot) and increments
`consecutiveFailures` by exactly 1. (iii) Concretely, with batchSize 2,
`add e1` then `add e2` triggers one flush of `[e1, e2]` inside the second
`add` (the first posts nothing, the second posts `[e1, e2]` on each of its
3 attempts); when the endpoint fails all three attempts the buffer is again
`[e1, e2]` and `consecutiveFailures = 1`. -/
theorem claim_C1_no_entry_dropped :
    (∀ (s : TransportState Nat) (ops : List (OpCtx Nat)),
        (runOps s ops).2 ++ (runOps s ops).1.buffer = s.buffer ++ addsOf ops) ∧
    (∀ (batch : List Nat) (oracle : List Bool) (t1 : ℚ) (s : TransportState Nat),
        oracle.getD 0 false = false → oracle.getD 1 false = false →
        oracle.getD 2 false = false →
        (sendLoop batch oracle t1 s [0, 1, 2]).state.buffer = batch ++ s.buffer ∧
        (sendLoop batch oracle t1 s [0, 1, 2]).state.consecutiveFailures =
          s.consecutiveFailures + 1) ∧
    (∀ e1 e2 : Nat,
        (runOps (initState Nat 2)
            [⟨true, e1, 0, 0, [false, false, false]⟩,
             ⟨true, e2, 0, 0, [false, false, false]⟩]).1.buffer = [e1, e2] ∧
        (runOps (initState Nat 2)
            [⟨true, e1, 0, 0, [false, false, false]⟩,
             ⟨true, e2, 0, 0, [false, false, false]⟩]).1.consecutiveFailures = 1 ∧
        (step (initState Nat 2) ⟨true, e1, 0, 0, [false, false, false]⟩).posted = [] ∧
        (step (⟨[e1], 0, 0, 2⟩ : TransportState Nat)
            ⟨true, e2, 0, 0, [false, false, false]⟩).posted =
          [[e1, e2], [e1, e2], [e1, e2]]) := by
  refine ⟨fun s ops => runOps_conservation ops s, ?_, ?_⟩
  · intro batch oracle t1 s h0 h1 h2
    rw [sendLoop_all_fail batch oracle t1 s h0 h1 h2]
    exact ⟨rfl, rfl⟩
  · intro e1 e2
    refine ⟨rfl, rfl, rfl, rfl⟩

/-- Witness for C1 at concrete inputs. -/
theorem claim_C1_witness :
    (sendLoop [5] [false, false, false] 0 (⟨[], 0, 0, 2⟩ : TransportState Nat)
        [0, 1, 2]).state.buffer = [5] ++ [] ∧
    (sendLoop [5] [false, false, false] 0 (⟨[], 0, 0, 2⟩ : TransportState Nat)
        [0, 1, 2]).state.consecutiveFailures = 0 + 1 :=
  claim_C1_no_entry_dropped.2.1 [5] [false, false, false] 0 ⟨[], 0, 0, 2⟩ rfl rfl rfl

/-- Claim C2: the circuit breaker. (i) When a flush with 4 prior consecutive
failures exhausts its 3 attempts (the 5th consecutive fully-exhausted
failure), `circuitBreakerUntil` becomes `t1 + 30`, i.e. exactly 30 seconds
after the wall-clock time `t1` of the final failure — at least 30 seconds in
the future. (ii) While `now < circuitBreakerUntil`, any caller-invoked flush
is `noop`: it makes no POST (`posted = []`), raises nothing (the embedding
is total) and returns the state unchanged. (iii) Likewise an `add` during
the open window only appends the entry: the add-triggered flush attempt
posts nothing and changes nothing else. -/
theorem claim_C2_circuit_breaker :
    (∀ (s : TransportState Nat) (t0 t1 : ℚ) (oracle : List Bool),
        s.consecutiveFailures = 4 → s.buffer.isEmpty = false →
        ¬ t0 < s.circuitBreakerUntil →
        oracle.getD 0 false = false → oracle.getD 1 false = false →
        oracle.getD 2 false = false →
        (flushInternal s t0 t1 oracle).state.circuitBreakerUntil = t1 + 30 ∧
        (flushInternal s t0 t1 oracle).state.consecutiveFailures = 5) ∧
    (∀ (s : TransportState Nat) (t0 t1 : ℚ) (oracle : List Bool),
        t0 < s.circuitBreakerUntil → flush s t0 t1 oracle = noop s) ∧
    (∀ (s : TransportState Nat) (e : Nat) (t0 t1 : ℚ) (oracle : List Bool),
        t0 < s.circuitBreakerUntil →
        add s e t0 t1 oracle = noop { s with buffer := s.buffer ++ [e] }) := by
  refine ⟨?_, ?_, ?_⟩
  · intro s t0 t1 oracle hcf he hc h0 h1 h2
    unfold flushInternal
    rw [sendLoop_all_fail _ _ _ _ h0 h1 h2]
    simp [he, hc, hcf]
  · intro s t0 t1 oracle hc
    unfold flush flushInternal
    by_cases he : s.buffer.isEmpty <;> simp [he, hc]
  · intro s e t0 t1 oracle hc
    unfold add flushInternal
    by_cases ht : (TransportState.batchSize s ≤ s.buffer.length + 1) <;>
      by_cases he : (s.buffer ++ [e]).isEmpty = true <;> simp [ht, he, hc]

/-- Witness for C2 at concrete inputs. -/
theorem claim_C2_witness :
    (flushInternal (⟨[9], 4, 0, 1⟩ : TransportState Nat) 0 2
        [false, false, false]).state.circuitBreakerUntil = 2 + 30 ∧
    flush (⟨[9], 4, 40, 1⟩ : TransportState Nat) 0 5 [true] = noop ⟨[9], 4, 40, 1⟩ ∧
    add (⟨[], 0, 40, 1⟩ : TransportState Nat) 3 0 5 [true] = noop ⟨[3], 0, 40, 1⟩ :=
  ⟨(claim_C2_circuit_breaker.1 ⟨[9], 4, 0, 1⟩ 0 2 [false, false, false] rfl rfl
      (by decide) rfl rfl rfl).1,
   claim_C2_circuit_breaker.2.1 ⟨[9], 4, 40, 1⟩ 0 5 [true] (by decide),
   claim_C2_circuit_breaker.2.2 ⟨[], 0, 40, 1⟩ 3 0 5 [true] (by decide)⟩

/-- Claim C5: retry and backoff discipline of one internal flush of a
non-empty buffer with a closed circuit. At most 3 attempts are made; every
attempt posts the very same snapshot (`posted` is `attemptsMade` copies of
the buffer — never a re-snapshot); the backoff sleeps are exactly
`2 ^ attemptIndex` seconds after each failed non-final attempt (1s after
attempt 1, 2s after attempt 2); a 2xx resets `consecutiveFailures` to 0,
delivers (discards) the snapshot and stops — success on the first or second
attempt means exactly 1 or 2 attempts were made; without any 2xx all 3
attempts run and nothing is delivered. -/
theorem claim_C5_retry_backoff :
    ∀ (s : TransportState Nat) (t0 t1 : ℚ) (oracle : List Bool),
      s.buffer.isEmpty = false → ¬ t0 < s.circuitBreakerUntil →
      (flushInternal s t0 t1 oracle).attemptsMade ≤ 3 ∧
      (flushInternal s t0 t1 oracle).posted =
        List.replicate (flushInternal s t0 t1 oracle).attemptsMade s.buffer ∧
      (flushInternal s t0 t1 oracle).sleeps =
        (List.range ((flushInternal s t0 t1 oracle).attemptsMade - 1)).map
          (fun i => (2 : ℚ) ^ i) ∧
      ((flushInternal s t0 t1 oracle).succeeded = true →
        (flushInternal s t0 t1 oracle).state.consecutiveFailures = 0 ∧
        (flushInternal s t0 t1 oracle).delivered = s.buffer ∧
        (flushInternal s t0 t1 oracle).state.buffer = []) ∧
      ((flushInternal s t0 t1 oracle).succeeded = false →
        (flushInternal s t0 t1 oracle).attemptsMade = 3 ∧
        (flushInternal s t0 t1 oracle).delivered = []) ∧
      ((flushInternal s t0 t1 oracle).succeeded = true ↔
        (oracle.getD 0 false || oracle.getD 1 false || oracle.getD 2 false) = true) ∧
      (oracle.getD 0 false = true → (flushInternal s t0 t1 oracle).attemptsMade = 1) ∧
      (oracle.getD 0 false = false → oracle.getD 1 false = true →
        (flushInternal s t0 t1 oracle).attemptsMade = 2) := by
  intro s t0 t1 oracle he hc
  have hfl : flushInternal s t0 t1 oracle =
      sendLoop s.buffer oracle t1 { s with buffer := [] } [0, 1, 2] := by
    unfold flushInternal
    simp [he, hc]
  rw [hfl]
  simp only [sendLoop, List.getD_eq_getElem?_getD]
  cases h0 : oracle[0]?.getD false <;> cases h1 : oracle[1]?.getD false <;>
    cases h2 : oracle[2]?.getD false <;>
    simp [h0, h1, h2, List.range_succ]

/-- Witness for C5 at concrete inputs (failure on attempt 1, success on
attempt 2). -/
theorem claim_C5_witness :
    (flushInternal (⟨[7], 0, 0, 3⟩ : TransportState Nat) 0 0
        [false, true]).attemptsMade ≤ 3 ∧
    (flushInternal (⟨[7], 0, 0, 3⟩ : TransportState Nat) 0 0 [false, true]).posted =
      List.replicate
        (flushInternal (⟨[7], 0, 0, 3⟩ : TransportState Nat) 0 0
          [false, true]).attemptsMade [7] :=
  ⟨(claim_C5_retry_backoff ⟨[7], 0, 0, 3⟩ 0 0 [false, true] rfl (by decide)).1,
   (claim_C5_retry_backoff ⟨[7], 0, 0, 3⟩ 0 0 [false, true] rfl (by decide)).2.1⟩

/-- Claim C6: `add` appends the entry to the buffer; exactly when the
resulting length reaches `batchSize` it triggers one internal flush in the
same critical section (below the threshold it is a pure append with no POST
and no other state change); when the threshold is reached and the circuit is
closed, the triggered flush's first POST carries the appended buffer. The
embedding of `add` is a total function: it returns no value to its caller
beyond the new state and never raises — delivery failures only show up in
the flush trace. -/
theorem claim_C6_add_appends_and_flushes :
    ∀ (s : TransportState Nat) (e : Nat) (t0 t1 : ℚ) (oracle : List Bool),
      (s.buffer.length + 1 < s.batchSize →
        add s e t0 t1 oracle = noop { s with buffer := s.buffer ++ [e] }) ∧
      (s.batchSize ≤ s.buffer.length + 1 →
        add s e t0 t1 oracle =
          flushInternal { s with buffer := s.buffer ++ [e] } t0 t1 oracle) ∧
      (s.batchSize ≤ s.buffer.length + 1 → ¬ t0 < s.circuitBreakerUntil →
        (add s e t0 t1 oracle).posted.head? = some (s.buffer ++ [e]) ∧
        1 ≤ (add s e t0 t1 oracle).attemptsMade) := by
  intro s e t0 t1 oracle
  refine ⟨?_, ?_, ?_⟩
  · intro hlt
    unfold add
    have : ¬ (TransportState.batchSize s ≤ s.buffer.length + 1) := by omega
    simp [this]
  · intro hge
    unfold add
    simp [hge]
  · intro hge hc
    unfold add flushInternal
    simp only [hge, List.length_append, List.length_cons, List.length_nil,
      Nat.zero_add, if_true, if_pos]
    have he : (s.buffer ++ [e]).isEmpty = false := by
      cases s.buffer <;> rfl
    simp only [he, Bool.false_eq_true, if_false, hc]
    simp only [sendLoop, List.getD_eq_getElem?_getD]
    cases h0 : oracle[0]?.getD false <;> cases h1 : oracle[1]?.getD false <;>
      cases h2 : oracle[2]?.getD false <;> simp [h0, h1, h2]

/-- Witness for C6 at concrete inputs. -/
theorem claim_C6_witness :
    add (⟨[4], 0, 0, 3⟩ : TransportState Nat) 6 0 0 [true] =
      noop ⟨[4, 6], 0, 0, 3⟩ ∧
    add (⟨[4], 0, 0, 2⟩ : TransportState Nat) 6 0 0 [true] =
      flushInternal ⟨[4, 6], 0, 0, 2⟩ 0 0 [true] ∧
    (add (⟨[4], 0, 0, 2⟩ : TransportState Nat) 6 0 0 [true]).posted.head? =
      some [4, 6] :=
  ⟨(claim_C6_add_appends_and_flushes ⟨[4], 0, 0, 3⟩ 6 0 0 [true]).1 (by decide),
   (claim_C6_add_appends_and_flushes ⟨[4], 0, 0, 2⟩ 6 0 0 [true]).2.1 (by decide),
   ((claim_C6_add_appends_and_flushes ⟨[4], 0, 0, 2⟩ 6 0 0 [true]).2.2 (by decide)
      (by decide)).1⟩

/-- Claim C7: wire serialization. (i) Every key of a dumped
`RequestLogEntry` is lower-camel-case; since `Wire` has no null
constructor, no field is ever emitted as null. (ii) Every key of a dumped
`LogBatch` is lower-camel-case. (iii) An entry whose optional fields are
all `none` serializes to exactly the seven required keys — none of the
optional payment/body keys appear. (iv) An entry with every optional field
supplied serializes all twenty-five keys, camel-cased, in dump order. -/
theorem claim_C7_wire_serialization :
    (∀ (e : RequestLogEntry), ∀ k ∈ (dumpEntry e).map Prod.fst,
        isLowerCamel k = true) ∧
    (∀ (b : LogBatch), ∀ k ∈ (dumpBatch b).map Prod.fst,
        isLowerCamel k = true) ∧
    (∀ e : RequestLogEntry,
        e.customer_id = none → e.tool_name = none → e.error_type = none →
        e.x402_amount = none → e.x402_tx_hash = none → e.x402_token = none →
        e.x402_payer = none → e.request_body = none → e.response_body = none →
        e.request_body_size = none → e.response_body_size = none →
        e.headers = none → e.ip_address = none → e.user_agent = none →
        e.referer = none → e.content_type = none → e.accept_language = none →
        e.protocol = none →
        (dumpEntry e).map Prod.fst =
          ["requestId", "method", "path", "statusCode", "responseMs", "source",
           "timestamp"]) ∧
    (∀ (rid m p src ts cid tn et xh xt xp rb sb ip ua rf ct al pr : String)
        (sc rbs sbs : Int) (ms xa : ℚ) (hdr : List (String × String)),
        (dumpEntry
            { request_id := rid, method := m, path := p, status_code := sc,
              response_ms := ms, customer_id := some cid, tool_name := some tn,
              error_type := some et, x402_amount := some xa,
              x402_tx_hash := some xh, x402_token := some xt,
              x402_payer := some xp, request_body := some rb,
              response_body := some sb, request_body_size := some rbs,
              response_body_size := some sbs, headers := some hdr,
              ip_address := some ip, user_agent := some ua, referer := some rf,
              content_type := some ct, accept_language := some al,
              protocol := some pr, source := src, timestamp := ts }).map
            Prod.fst =
          ["requestId", "method", "path", "statusCode", "responseMs",
           "customerId", "toolName", "errorType", "x402Amount", "x402TxHash",
           "x402Token", "x402Payer", "requestBody", "responseBody",
           "requestBodySize", "responseBodySize", "headers", "ipAddress",
           "userAgent", "referer", "contentType", "acceptLanguage", "protocol",
           "source", "timestamp"]) := by
  refine ⟨?_, ?_, ?_, ?_⟩
  · intro e k hk
    rcases List.mem_map.1 hk with ⟨pair, hpair, hfst⟩
    rcases List.mem_filterMap.1 hpair with ⟨a, ha, hfa⟩
    rcases a with ⟨n, v⟩
    rcases v with _ | w
    · simp at hfa
    · simp only [Option.map_some'] at hfa
      have hn : n ∈ (entryFields e).map Prod.fst :=
        List.mem_map.2 ⟨(n, some w), ha, rfl⟩
      rw [entryFields_names] at hn
      have hall : ∀ x ∈
          ["request_id", "method", "path", "status_code", "response_ms",
           "customer_id", "tool_name", "error_type", "x402_amount",
           "x402_tx_hash", "x402_token", "x402_payer", "request_body",
           "response_body", "request_body_size", "response_body_size",
           "headers", "ip_address", "user_agent", "referer", "content_type",
           "accept_language", "protocol", "source", "timestamp"],
          isLowerCamel (toCamel x) = true := by decide
      rw [← hfst]
      have hp : (toCamel n, w) = pair := Option.some.inj hfa
      rw [← hp]
      exact hall n hn
  · intro b k hk
    have hkeys : (dumpBatch b).map Prod.fst = ["agentId", "sdkVersion", "entries"] :=
      rfl
    rw [hkeys] at hk
    simp only [List.mem_cons, List.not_mem_nil, or_false] at hk
    rcases hk with rfl | rfl | rfl <;> decide
  · intro e h1 h2 h3 h4 h5 h6 h7 h8 h9 h10 h11 h12 h13 h14 h15 h16 h17 h18
    simp [dumpEntry, entryFields, h1, h2, h3, h4, h5, h6, h7, h8, h9, h10,
      h11, h12, h13, h14, h15, h16, h17, h18]
    decide
  · intro rid m p src ts cid tn et xh xt xp rb sb ip ua rf ct al pr sc rbs sbs
      ms xa hdr
    rfl

/-- Witness for C7 at concrete inputs. -/
theorem claim_C7_witness :
    isLowerCamel "requestId" = true ∧
    (dumpEntry { request_id := "r", method := "GET", path := "/x",
                 status_code := 200, response_ms := 1,
                 timestamp := "T" }).map Prod.fst =
      ["requestId", "method", "path", "statusCode", "responseMs", "source",
       "timestamp"] :=
  ⟨claim_C7_wire_serialization.1
      { request_id := "r", method := "GET", path := "/x", status_code := 200,
        response_ms := 1, timestamp := "T" } "requestId" (by decide),
   claim_C7_wire_serialization.2.2.1
      { request_id := "r", method := "GET", path := "/x", status_code := 200,
        response_ms := 1, timestamp := "T" }
      rfl rfl rfl rfl rfl rfl rfl rfl rfl rfl rfl rfl rfl rfl rfl rfl rfl rfl⟩

/-- Claim C8: constructor validation and endpoint selection. (i) A network
outside the table makes construction fail synchronously, before any state
is built, with the ValueError message citing both allowed values. (ii) With
a valid network, a non-null protocol outside VALID_PROTOCOLS fails with the
protocol ValueError. (iii) network testnet with no override yields the
testnet ingest URL, which contains the text "testnet.ingest". (iv) An
explicitly supplied ingest URL takes precedence over either network
default. -/
theorem claim_C8_constructor_validation :
    (∀ (aid key : String) (iu : Option String) (network : String) (bs : Nat)
        (fi : ℚ) (proto : Option String),
        network ≠ "mainnet" → network ≠ "testnet" →
        loggerInit aid key iu network bs fi proto =
          .error ("network must be " ++ quoted "mainnet" ++ " or " ++
            quoted "testnet" ++ ", got " ++ quoted network)) ∧
    (∀ (aid key : String) (iu : Option String) (network : String) (bs : Nat)
        (fi : ℚ) (p : String),
        (network = "mainnet" ∨ network = "testnet") →
        p ≠ "mcp" → p ≠ "a2a" →
        loggerInit aid key iu network bs fi (some p) =
          .error ("protocol must be one of (" ++ quoted "mcp" ++ ", " ++
            quoted "a2a" ++ "), got " ++ quoted p)) ∧
    (∀ (aid key : String) (bs : Nat) (fi : ℚ),
        loggerInit aid key none "testnet" bs fi none =
          .ok ⟨aid, key, "https://testnet.ingest.gt8004.xyz/v1/ingest", none,
            bs, fi⟩ ∧
        containsSeq "testnet.ingest".data
          "https://testnet.ingest.gt8004.xyz/v1/ingest".data = true) ∧
    (∀ (aid key u network : String) (bs : Nat) (fi : ℚ),
        (network = "mainnet" ∨ network = "testnet") →
        ∃ cfg, loggerInit aid key (some u) network bs fi none = .ok cfg ∧
          cfg.ingest_url = u) := by
  refine ⟨?_, ?_, ?_, ?_⟩
  · intro aid key iu network bs fi proto h1 h2
    have e1 : (network == "mainnet") = false := by simp [h1]
    have e2 : (network == "testnet") = false := by simp [h2]
    simp [loggerInit, ingestUrls, List.lookup, e1, e2]
  · intro aid key iu network bs fi p hn hp1 hp2
    rcases hn with rfl | rfl <;>
      simp [loggerInit, ingestUrls, List.lookup, validProtocols, hp1, hp2]
  · intro aid key bs fi
    exact ⟨rfl, by decide⟩
  · intro aid key u network bs fi hn
    rcases hn with rfl | rfl <;> exact ⟨_, rfl, rfl⟩

/-- Witness for C8 at concrete inputs. -/
theorem claim_C8_witness :
    loggerInit "a" "k" none "devnet" 50 5 none =
      .error ("network must be " ++ quoted "mainnet" ++ " or " ++
        quoted "testnet" ++ ", got " ++ quoted "devnet") ∧
    loggerInit "a" "k" none "mainnet" 50 5 (some "http") =
      .error ("protocol must be one of (" ++ quoted "mcp" ++ ", " ++
        quoted "a2a" ++ "), got " ++ quoted "http") ∧
    ∃ cfg, loggerInit "a" "k" (some "http://localhost:9092/v1/ingest")
        "testnet" 50 5 none = .ok cfg ∧
      cfg.ingest_url = "http://localhost:9092/v1/ingest" :=
  ⟨claim_C8_constructor_validation.1 "a" "k" none "devnet" 50 5 none
      (by decide) (by decide),
   claim_C8_constructor_validation.2.1 "a" "k" none "mainnet" 50 5 "http"
      (Or.inl rfl) (by decide) (by decide),
   claim_C8_constructor_validation.2.2.2 "a" "k"
      "http://localhost:9092/v1/ingest" "testnet" 50 5 (Or.inr rfl)⟩

/-- Claim C10: protocol-range invariant. (i) pydantic construction succeeds
only with the protocol in {none, mcp, a2a}; (ii) an out-of-range protocol
raises a ValidationError, so no entry value with such a protocol exists;
(iii) a successfully constructed logger's protocol is in range; (iv) the
protocol-defaulting step of `Logger.log` keeps the invariant; (v) it never
overwrites an already-set (valid, hence truthy) protocol; (vi) it assigns
the logger's protocol exactly when the entry's protocol is unset. -/
theorem claim_C10_protocol_invariant :
    (∀ e e' : RequestLogEntry, mkEntry e = .ok e' →
        e' = e ∧ (e'.protocol = none ∨ e'.protocol = some "mcp" ∨
          e'.protocol = some "a2a")) ∧
    (∀ e : RequestLogEntry, protocolOk e.protocol = false →
        mkEntry e =
          .error "ValidationError: protocol does not match pattern (mcp|a2a)") ∧
    (∀ (aid key : String) (iu : Option String) (network : String) (bs : Nat)
        (fi : ℚ) (proto : Option String) (cfg : LoggerConfig),
        loggerInit aid key iu network bs fi proto = .ok cfg →
        protocolOk cfg.protocol = true) ∧
    (∀ (cfg : LoggerConfig) (e : RequestLogEntry),
        protocolOk cfg.protocol = true → protocolOk e.protocol = true →
        protocolOk (logProtocolFill cfg e).protocol = true) ∧
    (∀ (cfg : LoggerConfig) (e : RequestLogEntry) (p : String),
        e.protocol = some p → protocolOk e.protocol = true →
        logProtocolFill cfg e = e) ∧
    (∀ (cfg : LoggerConfig) (e : RequestLogEntry),
        e.protocol = none → (logProtocolFill cfg e).protocol = cfg.protocol) := by
  refine ⟨?_, ?_, ?_, ?_, ?_, ?_⟩
  · intro e e' h
    unfold mkEntry at h
    by_cases hp : protocolOk e.protocol = true
    · rw [if_pos hp] at h
      cases h
      refine ⟨rfl, ?_⟩
      rcases he : e.protocol with _ | p
      · exact Or.inl rfl
      · rw [he] at hp
        simp only [protocolOk, Bool.or_eq_true, beq_iff_eq] at hp
        rcases hp with rfl | rfl
        · exact Or.inr (Or.inl rfl)
        · exact Or.inr (Or.inr rfl)
    · rw [if_neg hp] at h
      exact absurd h (by simp)
  · intro e h
    unfold mkEntry
    rw [if_neg (by simp [h])]
  · intro aid key iu network bs fi proto cfg h
    unfold loggerInit at h
    split at h
    · exact absurd h (by simp)
    · rcases proto with _ | p <;> dsimp only at h
      · cases h
        rfl
      · split at h
        · rename_i hc
          cases h
          have hp : p = "mcp" ∨ p = "a2a" := by
            simpa [validProtocols, List.contains, List.elem_eq_mem] using hc
          rcases hp with rfl | rfl <;> rfl
        · exact absurd h (by simp)
  · intro cfg e hcfg he
    unfold logProtocolFill
    by_cases hf : pyFalsyStr e.protocol = true
    · rw [if_pos hf]
      exact hcfg
    · rw [if_neg hf]
      exact he
  · intro cfg e p hp hok
    unfold logProtocolFill
    rw [hp] at hok ⊢
    simp only [protocolOk, Bool.or_eq_true, beq_iff_eq] at hok
    have : pyFalsyStr (some p) = false := by
      rcases hok with rfl | rfl <;> rfl
    rw [this]
    simp
  · intro cfg e hp
    unfold logProtocolFill
    rw [hp]
    rfl

/-- Witness for C10 at concrete inputs. -/
theorem claim_C10_witness :
    (logProtocolFill ⟨"a", "k", "u", some "mcp", 50, 5⟩
        { request_id := "r", method := "GET", path := "/x", status_code := 200,
          response_ms := 1, timestamp := "T" }).protocol = some "mcp" ∧
    logProtocolFill ⟨"a", "k", "u", some "mcp", 50, 5⟩
        { request_id := "r", method := "GET", path := "/x", status_code := 200,
          response_ms := 1, protocol := some "a2a", timestamp := "T" } =
      { request_id := "r", method := "GET", path := "/x", status_code := 200,
        response_ms := 1, protocol := some "a2a", timestamp := "T" } :=
  ⟨claim_C10_protocol_invariant.2.2.2.2.2 ⟨"a", "k", "u", some "mcp", 50, 5⟩
      { request_id := "r", method := "GET", path := "/x", status_code := 200,
        response_ms := 1, timestamp := "T" } rfl,
   claim_C10_protocol_invariant.2.2.2.2.1 ⟨"a", "k", "u", some "mcp", 50, 5⟩
      { request_id := "r", method := "GET", path := "/x", status_code := 200,
        response_ms := 1, protocol := some "a2a", timestamp := "T" }
      "a2a" rfl rfl⟩

/-- Claim C3 (code bug): `verifyConnection` cannot report failure. The ping
entry does carry `source = "sdk_ping"`, `statusCode = 0` and
`requestId = "startup-ping"`, and the flush is forced immediately although
one entry is far below the default batch size of 50 (the failing flush's
three POST attempts each carry the ping). But when the endpoint rejects all
three attempts, the function still returns `true` — the transport swallowed
the failure, incremented `consecutiveFailures` and re-queued the ping into
the buffer — contradicting the claim (and the method's own docstring) that
it returns `false` when the endpoint does not accept the ping. The returned
boolean is `true` for every state and every network oracle. -/
theorem claim_C3_verify_connection_bug :
    ∀ ts : String,
      (pingEntry ts).source = "sdk_ping" ∧
      (pingEntry ts).status_code = 0 ∧
      (pingEntry ts).request_id = "startup-ping" ∧
      (flush
          (add (initState RequestLogEntry 50) (pingEntry ts) 0 0 []).state
          0 0 [false, false, false]).posted =
        [[pingEntry ts], [pingEntry ts], [pingEntry ts]] ∧
      verifyConnection (initState RequestLogEntry 50) ts 0 0 0 0 []
          [false, false, false] =
        (true, ⟨[pingEntry ts], 1, 0, 50⟩) ∧
      (∀ (t0 t1 t2 t3 : ℚ) (o1 o2 : List Bool)
          (s : TransportState RequestLogEntry),
        (verifyConnection s ts t0 t1 t2 t3 o1 o2).1 = true) :=
  fun ts => ⟨rfl, rfl, rfl, rfl, rfl, fun _ _ _ _ _ _ _ => rfl⟩

/-- Claim C4 (code bug): the extraction function itself does degrade to
all-null fields — absent headers, empty headers and undecodable headers all
yield the all-`none` record, and as a total function it cannot raise. But
the FastAPI adapter's dispatch (and identically the pure-ASGI adapter)
calls it with a single positional argument while the function requires
two, so in those adapters the extraction step raises a `TypeError` on
every logged request, before any header is even looked at — contradicting
the claim (and the repository's own FastAPI x402 tests, which expect
extracted or all-null fields and a logged request). -/
theorem claim_C4_x402_step_raises :
    (∀ decode : String → Option Json,
        extract_x402_payment decode none none = {}) ∧
    extract_x402_payment (fun _ => none) (some "not-base64!")
        (some "not-base64!") = {} ∧
    (∀ decode : String → Option Json,
        extract_x402_payment decode (some "") (some "") = {}) ∧
    (∀ (decode : String → Option Json) (hdr : Option String),
        fastapiX402Step decode hdr =
          .error
            "TypeError: extract_x402_payment() missing 1 required positional argument") :=
  ⟨fun _ => rfl, rfl, fun _ => rfl, fun _ _ => rfl⟩

/-- Claim C9: tool-name extraction keyed by protocol. (i) For `mcp`, a
non-empty body parsing to a dict with `method = "tools/call"` yields
`params.name`. (ii) A parse failure yields `none`. (iii) A different
method yields `none`. (iv) For `a2a`, a truthy `skill_id` in the parsed
body wins. (v) With no body, protocol `a2a` on `/a2a/tasks/send` yields
`"send"` via the path fallback. (vi) For unset/other protocols the path
fallback is used, and whenever the path has any non-empty segment the
result is exactly its last non-empty segment — the code's
rstrip-then-last-segment refines the specification's wording. -/
theorem claim_C9_tool_name_extraction :
    (∀ (parse : String → Option Json) (b p : String) (name : Json),
        b ≠ "" →
        parse b = some (.obj [("method", .str "tools/call"),
          ("params", .obj [("name", name)])]) →
        extract_tool_name parse (some "mcp") (some b) p = some name) ∧
    (∀ (parse : String → Option Json) (b : String),
        parse b = none → extract_mcp_tool_name parse (some b) = none) ∧
    (∀ (parse : String → Option Json) (b m : String) (data : Json),
        b ≠ "" → parse b = some data →
        data.get "method" = some (.str m) → m ≠ "tools/call" →
        extract_mcp_tool_name parse (some b) = none) ∧
    (∀ (parse : String → Option Json) (b p : String) (data v : Json),
        b ≠ "" → parse b = some data → data.get "skill_id" = some v →
        v.truthy = true →
        extract_tool_name parse (some "a2a") (some b) p = some v) ∧
    (∀ parse : String → Option Json,
        extract_tool_name parse (some "a2a") none "/a2a/tasks/send" =
          some (.str "send")) ∧
    (∀ (parse : String → Option Json) (proto : Option String)
        (body : Option String) (path : String) (seg : List Char),
        (proto == some "mcp") = false → (proto == some "a2a") = false →
        lastNonEmptySegment path = some seg →
        extract_tool_name parse proto body path =
          some (.str (String.mk seg))) := by
  refine ⟨?_, ?_, ?_, ?_, ?_, ?_⟩
  · intro parse b p name hb hparse
    simp [extract_tool_name, extract_mcp_tool_name, hb, hparse, Json.get,
      List.lookup]
  · intro parse b hparse
    by_cases hb : b = "" <;> simp [extract_mcp_tool_name, hb, hparse]
  · intro parse b m data hb hparse hm hne
    simp [extract_mcp_tool_name, hb, hparse, hm, hne]
  · intro parse b p data v hb hparse hskill htruthy
    simp [extract_tool_name, extract_a2a_tool_name, hb, hparse, hskill,
      htruthy]
  · intro parse
    rfl
  · intro parse proto body path seg h1 h2 hseg
    have hne : ((splitOnChar '/' path.data).filter
        (fun s => !s.isEmpty)).getLast? ≠ none := by
      have : ((splitOnChar '/' path.data).filter
          (fun s => !s.isEmpty)).getLast? = some seg := hseg
      rw [this]
      simp
    have hlast : (splitOnChar '/' (rstripSlash path.data)).getLast? = some seg := by
      rw [splitOnChar_rstrip_getLast path.data hne]
      exact hseg
    simp only [extract_tool_name, extract_http_tool_name, h1, h2,
      Bool.false_eq_true, if_false, hlast]

/-- Witness for C9 at concrete inputs: the spec's two scenarios, with a
parse oracle mapping the mcp JSON-RPC body text to its parsed value. -/
theorem claim_C9_witness :
    extract_tool_name
        (fun x => if x = mcpBodyText then
          some (.obj [("method", .str "tools/call"),
            ("params", .obj [("name", .str "search")])]) else none)
        (some "mcp") (some mcpBodyText) "/mcp" = some (.str "search") ∧
    extract_tool_name (fun _ => none) none none "/api/search" =
      some (.str (String.mk "search".data)) :=
  ⟨claim_C9_tool_name_extraction.1 _ mcpBodyText "/mcp" (.str "search")
      (by decide) (by simp),
   claim_C9_tool_name_extraction.2.2.2.2.2 _ none none "/api/search"
      "search".data rfl rfl rfl⟩

end Claims

end GT8004
